import Mathlib

/-!
Verification of the svd2rust device-rendering pipeline (src/src/main.rs).

The embedding models, faithfully to `main.rs`:
  * the `Target` enumeration and `Target::parse`;
  * the body of `run`: target resolution (with its `cortex-m` default),
    the ordering of the pipeline stages, and the final output dispatch
    (three files for Cortex-M, a single stdout stream otherwise);
  * the generated `build.rs` program produced by `build_rs`.

The `generate` module (`generate::device::render`) is not part of the
sources available here; the definitions below that carry a doc comment
starting with `Modelled from the spec:` reconstruct the relevant pieces
(normalizer, register/field emitter, interrupt-table emitter) from the
specification document, and claims about them are settled against those
models.
-/

namespace Svd2Rust

/-- The closed target enumeration of `main.rs` (`enum Target`). -/
inductive Target
  | CortexM
  | Msp430
  | RISCV
  | None
deriving DecidableEq, Repr

/-- `Target::parse` from `main.rs` lines 38-48: the four recognised
selector strings, everything else is an `unknown target` error. -/
def Target.parse (s : String) : Except String Target :=
  if s = "cortex-m" then Except.ok Target.CortexM
  else if s = "msp430" then Except.ok Target.Msp430
  else if s = "riscv" then Except.ok Target.RISCV
  else if s = "none" then Except.ok Target.None
  else Except.error ("unknown target " ++ s)

/-- Access mode of a register or field (read-only / write-only / read-write). -/
inductive Access
  | readOnly
  | writeOnly
  | readWrite
deriving DecidableEq, Repr

/-- A bit field inside a register. -/
structure Field where
  name : String
  bitOffset : Nat
  bitWidth : Nat
  access : Access
deriving DecidableEq, Repr

/-- A register: offset, width, access mode, reset value and its fields. -/
structure Register where
  name : String
  addrOffset : Nat
  size : Nat
  access : Access
  resetValue : Nat
  fields : List Field
deriving DecidableEq, Repr

/-- A contiguous block of registers inside a peripheral. -/
structure RegisterBlock where
  name : String
  offset : Nat
  registers : List Register
deriving DecidableEq, Repr

/-- A peripheral: base address, optional derive-from reference, blocks. -/
structure Peripheral where
  name : String
  baseAddress : Nat
  derivedFrom : Option String
  blocks : List RegisterBlock
deriving DecidableEq, Repr

/-- An interrupt: symbolic name and numeric vector index. -/
structure Interrupt where
  name : String
  value : Nat
deriving DecidableEq, Repr

/-- The device model handed to the renderer by the external SVD parser. -/
structure Device where
  name : String
  peripherals : List Peripheral
  interrupts : List Interrupt
deriving DecidableEq, Repr

/-- An entry of the emitted vector table: a named handler or a reserved
placeholder that still consumes table space. -/
inductive VectorEntry
  | reserved
  | handler (name : String)
deriving DecidableEq, Repr

/-- Largest declared interrupt index (0 for an empty list). -/
def maxInterruptIndex (is : List Interrupt) : Nat :=
  (is.map (fun i => i.value)).foldr max 0

/-- First interrupt declared at index `i`, if any. -/
def lookupInterrupt (is : List Interrupt) (i : Nat) : Option Interrupt :=
  is.find? (fun it => it.value == i)

/-- Modelled from the spec: the Interrupt Table Emitter (part of svd2rust's
`generate` module, absent from src/). One entry per index from 0 to the
maximum declared index inclusive; indices with no declared interrupt become
reserved placeholders, declared ones become handler symbol references. -/
def vectorTable (is : List Interrupt) : List VectorEntry :=
  (List.range (maxInterruptIndex is + 1)).map (fun i =>
    match lookupInterrupt is i with
    | some it => VectorEntry.handler it.name
    | none => VectorEntry.reserved)

/-- Linker-script text for one vector-table entry; unresolved handlers fall
back to the default handler symbol. -/
def entryText (e : VectorEntry) : String :=
  match e with
  | VectorEntry.reserved => "/* reserved */"
  | VectorEntry.handler nm => "PROVIDE(" ++ nm ++ " = DefaultHandler);"

/-- Modelled from the spec: the linker-script (`device.x`) text built by the
Interrupt Table Emitter. -/
def deviceXText (is : List Interrupt) : String :=
  String.intercalate "\n" ((vectorTable is).map entryText)

/-- An operation exposed by a generated register accessor. -/
inductive RegisterOp
  | read
  | write
  | modify
deriving DecidableEq, Repr

/-- An operation exposed by a generated field accessor. -/
inductive FieldOp
  | getter
  | setter
  | modify
deriving DecidableEq, Repr

/-- Modelled from the spec: the operations the Register/Field Code Emitter
(svd2rust's `generate` module, absent from src/) generates for a register of
a given access mode: a write-only register exposes no read operation, a
read-only register exposes no write, and `modify` only exists when the
register is read-write. -/
def registerOps (a : Access) : List RegisterOp :=
  match a with
  | Access.readOnly => [RegisterOp.read]
  | Access.writeOnly => [RegisterOp.write]
  | Access.readWrite => [RegisterOp.read, RegisterOp.write, RegisterOp.modify]

/-- Modelled from the spec: the operations the Register/Field Code Emitter
generates for a field of a given access mode: read-only fields get no
setter/modify, write-only fields get no getter. -/
def fieldOps (a : Access) : List FieldOp :=
  match a with
  | Access.readOnly => [FieldOp.getter]
  | Access.writeOnly => [FieldOp.setter]
  | Access.readWrite => [FieldOp.getter, FieldOp.setter, FieldOp.modify]

def registerOpName (o : RegisterOp) : String :=
  match o with
  | RegisterOp.read => "read"
  | RegisterOp.write => "write"
  | RegisterOp.modify => "modify"

def fieldOpName (o : FieldOp) : String :=
  match o with
  | FieldOp.getter => "getter"
  | FieldOp.setter => "setter"
  | FieldOp.modify => "modify"

/-- A unit of emitted source code: the surface text plus a tag describing its
semantics (which register it accesses and which operations it exposes). -/
structure GeneratedItem where
  text : String
  semanticsTag : String
deriving DecidableEq, Repr

/-- The semantics of a register accessor: register name, register-level
operations, and every field with its field-level operations. -/
def registerSemantics (r : Register) : String :=
  r.name ++ "#" ++
    String.intercalate "," ((registerOps r.access).map registerOpName) ++ "#" ++
    String.intercalate ";" (r.fields.map (fun f =>
      f.name ++ ":" ++ String.intercalate "," ((fieldOps f.access).map fieldOpName)))

/-- Modelled from the spec: one generated accessor item per register.  The
forward-looking (`nightly`) flag may change the representation, and only for
the Cortex-M target; the semantics tag never depends on it. -/
def renderRegister (t : Target) (nightly : Bool) (r : Register) : GeneratedItem :=
  { text := (if nightly = true ∧ t = Target.CortexM then "unstable accessor "
             else "accessor ") ++ registerSemantics r,
    semanticsTag := registerSemantics r }

/-- A default block used only as a `getD` fallback. -/
def emptyBlock : RegisterBlock :=
  { name := "", offset := 0, registers := [] }

/-- Modelled from the spec: derive-from resolution in the Model Normalizer
(svd2rust's `generate` module, absent from src/).  A derived peripheral
inherits every register block of its source unless it redefines a block by
name, in which case the redefinition wins entirely (no field-level merge). -/
def resolveDerived (child source : Peripheral) : Peripheral :=
  { child with
    derivedFrom := none
    blocks := source.blocks.map (fun b =>
      match child.blocks.find? (fun c => c.name == b.name) with
      | some c => c
      | none => b) }

def findPeripheral (ps : List Peripheral) (nm : String) : Option Peripheral :=
  ps.find? (fun p => p.name == nm)

/-- Modelled from the spec: normalization of one peripheral — resolve its
derive-from reference, failing on a dangling reference. -/
def normalizePeripheral (ps : List Peripheral) (p : Peripheral) : Except String Peripheral :=
  match p.derivedFrom with
  | none => Except.ok p
  | some src =>
    match findPeripheral ps src with
    | some q => Except.ok (resolveDerived p q)
    | none => Except.error ("dangling derivedFrom " ++ src ++ " in peripheral " ++ p.name)

/-- `true` iff two interrupts declare the same vector index. -/
def hasDuplicateIndex (is : List Interrupt) : Bool :=
  match is with
  | [] => false
  | i :: rest => rest.any (fun j => j.value == i.value) || hasDuplicateIndex rest

/-- Modelled from the spec: the Model Normalizer — validates the interrupt
list and resolves every derive-from reference, failing with a `ModelError`
string on the first violation. -/
def normalize (d : Device) : Except String Device :=
  if hasDuplicateIndex d.interrupts then
    Except.error ("duplicate interrupt index in device " ++ d.name)
  else
    match d.peripherals.mapM (normalizePeripheral d.peripherals) with
    | Except.error e => Except.error e
    | Except.ok ps => Except.ok { d with peripherals := ps }

/-- All registers of a device, in declaration order. -/
def deviceRegisters (d : Device) : List Register :=
  (d.peripherals.map (fun p => (p.blocks.map (fun b => b.registers)).flatten)).flatten

/-- The result of `generate::device::render`: the generated items and the
`device_x` linker-script text it accumulates. -/
structure RenderOutput where
  items : List GeneratedItem
  deviceX : String
deriving DecidableEq, Repr

/-- Modelled from the spec: `generate::device::render` (absent from src/) —
normalize the device, then emit one accessor item per register and the
vector-table linker script; fails atomically if normalization fails. -/
def render (d : Device) (t : Target) (nightly : Bool) : Except String RenderOutput :=
  match normalize d with
  | Except.error e => Except.error e
  | Except.ok nd =>
    Except.ok { items := (deviceRegisters nd).map (renderRegister t nightly)
                deviceX := deviceXText nd.interrupts }

/-- An output artifact of one invocation: a written file or a stdout stream. -/
inductive Artifact
  | file (name : String) (contents : String)
  | stdout (contents : String)
deriving DecidableEq, Repr

/-- The concatenated source-code stream (`quote!(#(#items)*)`). -/
def codeStream (items : List GeneratedItem) : String :=
  String.intercalate "\n" (items.map (fun it => it.text))

/-- An action performed by the generated build-glue (`build.rs`) program. -/
inductive BuildAction
  | copyFile (src dst : String)
  | emitDirective (line : String)
deriving DecidableEq, Repr

/-- Behaviour of the build-glue program generated by `build_rs` in
`main.rs` lines 184-207: when the `rt` cargo feature is active it copies
`device.x` into `OUT_DIR`, emits a `rustc-link-search` directive for that
directory and a `rerun-if-changed=device.x` directive; in every case it
emits the final `rerun-if-changed=build.rs` directive. -/
def buildGlueActions (featureRt : Bool) (outDir : String) : List BuildAction :=
  (if featureRt then
    [BuildAction.copyFile "device.x" (outDir ++ "/device.x"),
     BuildAction.emitDirective ("cargo:rustc-link-search=" ++ outDir),
     BuildAction.emitDirective "cargo:rerun-if-changed=device.x"]
  else []) ++ [BuildAction.emitDirective "cargo:rerun-if-changed=build.rs"]

/-- The source text of the generated build-glue program (constant in
`build_rs`). -/
def buildRsText : String :=
  "build.rs: copy device.x to OUT_DIR and emit link-search when feature rt is active"

/-- The stages `run` (`main.rs` lines 50-136) executes, in order. -/
inductive Stage
  | resolveTargetStage
  | readInput
  | parseModel
  | renderStage
  | writeOutput
deriving DecidableEq, Repr

/-- Target resolution in `run` (`main.rs` lines 93-96): a missing `--target`
argument silently defaults to `cortex-m`, a present one goes through
`Target::parse`. -/
def resolveTarget (arg : Option String) : Except String Target :=
  match arg with
  | none => Except.ok Target.CortexM
  | some s => Target.parse s

/-- Output dispatch of `run` (`main.rs` lines 122-133): for Cortex-M, three
files (`lib.rs`, `device.x`, `build.rs`); for every other target a single
stream printed to stdout. -/
def outputsFor (t : Target) (out : RenderOutput) : List Artifact :=
  if t = Target.CortexM then
    [Artifact.file "lib.rs" (codeStream out.items),
     Artifact.file "device.x" out.deviceX,
     Artifact.file "build.rs" buildRsText]
  else
    [Artifact.stdout (codeStream out.items)]

/-- The body of `run` (`main.rs` lines 50-136): resolve the target first,
then read the input and parse the model, then render, then write.  The
first component records the stages that actually executed, in order; the
second is the result.  A failure at any stage stops the pipeline: no
artifact is produced after a failure. -/
def run (targetArg : Option String) (d : Device) (nightly : Bool) :
    List Stage × Except String (List Artifact) :=
  match resolveTarget targetArg with
  | Except.error e => ([Stage.resolveTargetStage], Except.error e)
  | Except.ok t =>
    match render d t nightly with
    | Except.error e =>
      ([Stage.resolveTargetStage, Stage.readInput, Stage.parseModel, Stage.renderStage],
       Except.error e)
    | Except.ok out =>
      ([Stage.resolveTargetStage, Stage.readInput, Stage.parseModel, Stage.renderStage,
        Stage.writeOutput],
       Except.ok (outputsFor t out))

/-! Concrete sample data, used by the witnesses below. -/

def sampleField : Field :=
  { name := "PIN0", bitOffset := 0, bitWidth := 1, access := Access.readWrite }

def sampleRegister : Register :=
  { name := "ODR", addrOffset := 12, size := 32, access := Access.readWrite
    resetValue := 0, fields := [sampleField] }

def sampleBlock : RegisterBlock :=
  { name := "GPIOA_REGS", offset := 0, registers := [sampleRegister] }

def samplePeripheral : Peripheral :=
  { name := "GPIOA", baseAddress := 1073741824, derivedFrom := none
    blocks := [sampleBlock] }

def sampleInterrupts : List Interrupt :=
  [{ name := "UART0", value := 2 }, { name := "TIMER1", value := 5 }]

def sampleDevice : Device :=
  { name := "STM32", peripherals := [samplePeripheral], interrupts := sampleInterrupts }

def sampleOutMsp : RenderOutput :=
  (render sampleDevice Target.Msp430 false).toOption.getD { items := [], deviceX := "" }

def sampleOutCM : RenderOutput :=
  (render sampleDevice Target.CortexM false).toOption.getD { items := [], deviceX := "" }

/-- A device the normalizer rejects: two interrupts on the same index. -/
def badDevice : Device :=
  { name := "BAD", peripherals := []
    interrupts := [{ name := "A", value := 3 }, { name := "B", value := 3 }] }

def regX : Register :=
  { name := "CR", addrOffset := 0, size := 32, access := Access.readWrite
    resetValue := 0, fields := [] }

def regY : Register :=
  { name := "CR", addrOffset := 0, size := 32, access := Access.readOnly
    resetValue := 0, fields := [sampleField] }

def blockCtrl : RegisterBlock := { name := "CTRL", offset := 0, registers := [regX] }

def blockCtrlRedef : RegisterBlock := { name := "CTRL", offset := 0, registers := [regY] }

def blockData : RegisterBlock := { name := "DATA", offset := 4, registers := [regX] }

def sourcePeripheral : Peripheral :=
  { name := "UART1", baseAddress := 16384, derivedFrom := none
    blocks := [blockCtrl, blockData] }

def derivedPeripheral : Peripheral :=
  { name := "UART2", baseAddress := 20480, derivedFrom := some "UART1"
    blocks := [blockCtrlRedef] }

def roField : Field := { name := "RO", bitOffset := 0, bitWidth := 1, access := Access.readOnly }

def woField : Field := { name := "WO", bitOffset := 1, bitWidth := 1, access := Access.writeOnly }

def roRegister : Register :=
  { name := "SR", addrOffset := 0, size := 32, access := Access.readOnly
    resetValue := 0, fields := [roField] }

def woRegister : Register :=
  { name := "DR", addrOffset := 4, size := 32, access := Access.writeOnly
    resetValue := 0, fields := [woField] }

/-- The semantics (exposed operations per accessor, linker-script text) of a
render result, ignoring surface representation. -/
def semanticsOf (res : Except String RenderOutput) : Option (List String × String) :=
  res.toOption.map (fun o => (o.items.map (fun it => it.semanticsTag), o.deviceX))

/-! Theorems settling the claims. -/

/-- C1: for every successful run, the Cortex-M target yields exactly three
artifacts — the source-code stream `lib.rs`, the linker-script text
`device.x` and the build-glue program `build.rs` — and every other target
yields exactly one artifact, the source-code stream printed to stdout. -/
theorem C1_output_shape (targetArg : Option String) (d : Device) (n : Bool)
    (t : Target) (out : RenderOutput)
    (ht : resolveTarget targetArg = Except.ok t)
    (hr : render d t n = Except.ok out) :
    (run targetArg d n).2 = Except.ok (outputsFor t out) ∧
    (t = Target.CortexM →
      outputsFor t out =
        [Artifact.file "lib.rs" (codeStream out.items),
         Artifact.file "device.x" out.deviceX,
         Artifact.file "build.rs" buildRsText] ∧
      (outputsFor t out).length = 3) ∧
    (t ≠ Target.CortexM →
      outputsFor t out = [Artifact.stdout (codeStream out.items)] ∧
      (outputsFor t out).length = 1) := by
  refine ⟨?_, ?_, ?_⟩
  · simp [run, ht, hr]
  · intro h; subst h; simp [outputsFor]
  · intro h; simp [outputsFor, h]

/-- Witness for C1: a concrete msp430 run produces the single stdout
artifact. -/
theorem C1_output_shape_witness :
    (run (some "msp430") sampleDevice false).2 =
      Except.ok (outputsFor Target.Msp430 sampleOutMsp) ∧
    (Target.Msp430 = Target.CortexM →
      outputsFor Target.Msp430 sampleOutMsp =
        [Artifact.file "lib.rs" (codeStream sampleOutMsp.items),
         Artifact.file "device.x" sampleOutMsp.deviceX,
         Artifact.file "build.rs" buildRsText] ∧
      (outputsFor Target.Msp430 sampleOutMsp).length = 3) ∧
    (Target.Msp430 ≠ Target.CortexM →
      outputsFor Target.Msp430 sampleOutMsp =
        [Artifact.stdout (codeStream sampleOutMsp.items)] ∧
      (outputsFor Target.Msp430 sampleOutMsp).length = 1) :=
  C1_output_shape (some "msp430") sampleDevice false Target.Msp430 sampleOutMsp
    rfl rfl

/-- C2: every selector outside the four recognised strings makes
`Target::parse` fail with an unsupported-target error and stops `run` right
after target resolution — before the model is read, parsed or rendered —
while each of the four recognised strings parses to its `Target` variant. -/
theorem C2_unsupported_target (s : String) (d : Device) (n : Bool)
    (h1 : s ≠ "cortex-m") (h2 : s ≠ "msp430") (h3 : s ≠ "riscv") (h4 : s ≠ "none") :
    Target.parse s = Except.error ("unknown target " ++ s) ∧
    (run (some s) d n).1 = [Stage.resolveTargetStage] ∧
    Stage.parseModel ∉ (run (some s) d n).1 ∧
    Stage.renderStage ∉ (run (some s) d n).1 ∧
    (run (some s) d n).2 = Except.error ("unknown target " ++ s) ∧
    Target.parse "cortex-m" = Except.ok Target.CortexM ∧
    Target.parse "msp430" = Except.ok Target.Msp430 ∧
    Target.parse "riscv" = Except.ok Target.RISCV ∧
    Target.parse "none" = Except.ok Target.None := by
  have hp : Target.parse s = Except.error ("unknown target " ++ s) := by
    simp [Target.parse, h1, h2, h3, h4]
  have hrun : run (some s) d n = ([Stage.resolveTargetStage],
      Except.error ("unknown target " ++ s)) := by
    simp [run, resolveTarget, hp]
  refine ⟨hp, ?_, ?_, ?_, ?_, rfl, rfl, rfl, rfl⟩
  · rw [hrun]
  · rw [hrun]; simp
  · rw [hrun]; simp
  · rw [hrun]

/-- Witness for C2 at the concrete unknown selector `avr`. -/
theorem C2_unsupported_target_witness :
    Target.parse "avr" = Except.error ("unknown target " ++ "avr") ∧
    (run (some "avr") sampleDevice false).1 = [Stage.resolveTargetStage] ∧
    Stage.parseModel ∉ (run (some "avr") sampleDevice false).1 ∧
    Stage.renderStage ∉ (run (some "avr") sampleDevice false).1 ∧
    (run (some "avr") sampleDevice false).2 =
      Except.error ("unknown target " ++ "avr") ∧
    Target.parse "cortex-m" = Except.ok Target.CortexM ∧
    Target.parse "msp430" = Except.ok Target.Msp430 ∧
    Target.parse "riscv" = Except.ok Target.RISCV ∧
    Target.parse "none" = Except.ok Target.None :=
  C2_unsupported_target "avr" sampleDevice false
    (by decide) (by decide) (by decide) (by decide)

/-- C3 counterexample: with the runtime feature off, the generated
build-glue program is not a no-op producing no output — it still emits the
unconditional `cargo:rerun-if-changed=build.rs` directive. -/
theorem C3_counterexample :
    buildGlueActions false "out" =
      [BuildAction.emitDirective "cargo:rerun-if-changed=build.rs"] ∧
    buildGlueActions false "out" ≠ [] := by
  constructor
  · rfl
  · simp [buildGlueActions]

/-- C3 amended: the build-glue program copies the linker script into the
search path and registers it only when the runtime feature is requested;
with the feature off it copies no file and registers nothing, emitting only
the unconditional `cargo:rerun-if-changed=build.rs` directive. -/
theorem C3_build_glue (outDir src dst : String) :
    buildGlueActions true outDir =
      [BuildAction.copyFile "device.x" (outDir ++ "/device.x"),
       BuildAction.emitDirective ("cargo:rustc-link-search=" ++ outDir),
       BuildAction.emitDirective "cargo:rerun-if-changed=device.x",
       BuildAction.emitDirective "cargo:rerun-if-changed=build.rs"] ∧
    buildGlueActions false outDir =
      [BuildAction.emitDirective "cargo:rerun-if-changed=build.rs"] ∧
    BuildAction.copyFile src dst ∉ buildGlueActions false outDir := by
  refine ⟨rfl, rfl, ?_⟩
  simp [buildGlueActions]

/-- C4: when rendering fails, `run` produces no artifact: the write stage
never executes and the result is exactly the rendering error. -/
theorem C4_no_partial_output (targetArg : Option String) (d : Device) (n : Bool)
    (t : Target) (e : String) (arts : List Artifact)
    (ht : resolveTarget targetArg = Except.ok t)
    (hr : render d t n = Except.error e) :
    (run targetArg d n).2 = Except.error e ∧
    Stage.writeOutput ∉ (run targetArg d n).1 ∧
    (run targetArg d n).2 ≠ Except.ok arts := by
  have hrun : run targetArg d n =
      ([Stage.resolveTargetStage, Stage.readInput, Stage.parseModel, Stage.renderStage],
       Except.error e) := by
    simp [run, ht, hr]
  refine ⟨?_, ?_, ?_⟩
  · rw [hrun]
  · rw [hrun]; simp
  · rw [hrun]; simp

/-- Witness for C4: the duplicate-interrupt device makes rendering fail and
the run emits nothing. -/
theorem C4_no_partial_output_witness :
    (run (some "cortex-m") badDevice false).2 =
      Except.error "duplicate interrupt index in device BAD" ∧
    Stage.writeOutput ∉ (run (some "cortex-m") badDevice false).1 ∧
    (run (some "cortex-m") badDevice false).2 ≠ Except.ok [] :=
  C4_no_partial_output (some "cortex-m") badDevice false Target.CortexM
    "duplicate interrupt index in device BAD" [] rfl rfl

/-- C5: the emitted vector table has exactly `max(declared index)+1`
entries, and the entry at each index `i` is the handler of the interrupt
declared at `i`, or a reserved placeholder when no interrupt is declared
there — so gaps never shift the positions of later entries. -/
theorem C5_vector_table (is : List Interrupt) (i : Nat)
    (hne : is ≠ []) (hi : i ≤ maxInterruptIndex is) :
    (vectorTable is).length = maxInterruptIndex is + 1 ∧
    (vectorTable is).getD i VectorEntry.reserved =
      (match lookupInterrupt is i with
       | some it => VectorEntry.handler it.name
       | none => VectorEntry.reserved) := by
  have hlen : (vectorTable is).length = maxInterruptIndex is + 1 := by
    simp [vectorTable]
  refine ⟨hlen, ?_⟩
  have hi' : i < (vectorTable is).length := by
    rw [hlen]; exact Nat.lt_succ_of_le hi
  rw [List.getD_eq_getElem _ _ hi']
  simp [vectorTable]

/-- Witness for C5 at the spec scenario interrupts, index 3 (a gap). -/
theorem C5_vector_table_witness :
    (vectorTable sampleInterrupts).length = maxInterruptIndex sampleInterrupts + 1 ∧
    (vectorTable sampleInterrupts).getD 3 VectorEntry.reserved =
      (match lookupInterrupt sampleInterrupts 3 with
       | some it => VectorEntry.handler it.name
       | none => VectorEntry.reserved) :=
  C5_vector_table sampleInterrupts 3 (by decide) (by decide)

/-- C6: the pipeline is a pure function of the device model, target
selection and flags: running it twice on the same inputs yields identical
stage lists and byte-identical artifacts. -/
theorem C6_deterministic (targetArg : Option String) (d : Device)
    (t : Target) (n : Bool) :
    run targetArg d n = run targetArg d n ∧ render d t n = render d t n :=
  ⟨rfl, rfl⟩

/-- C7: a derived peripheral's resolved layout has exactly its source's
blocks, and each resolved block is the child's redefinition when the child
redefines that block's name — replacing the inherited block entirely — and
the source's block otherwise. -/
theorem C7_derive_resolution (child source : Peripheral) (i : Nat)
    (hi : i < source.blocks.length) :
    (resolveDerived child source).blocks.length = source.blocks.length ∧
    (resolveDerived child source).blocks.getD i emptyBlock =
      (match child.blocks.find? (fun c =>
          c.name == (source.blocks.getD i emptyBlock).name) with
       | some c => c
       | none => source.blocks.getD i emptyBlock) := by
  have hlen : (resolveDerived child source).blocks.length = source.blocks.length := by
    simp [resolveDerived]
  have hi2 : i < (resolveDerived child source).blocks.length := by rw [hlen]; exact hi
  refine ⟨hlen, ?_⟩
  rw [List.getD_eq_getElem _ _ hi2, List.getD_eq_getElem _ _ hi]
  simp [resolveDerived]

/-- Witness for C7: the derived `UART2` keeps its own `CTRL` redefinition
(fields and all) and inherits `DATA` from `UART1`. -/
theorem C7_derive_resolution_witness :
    (resolveDerived derivedPeripheral sourcePeripheral).blocks.length =
      sourcePeripheral.blocks.length ∧
    (resolveDerived derivedPeripheral sourcePeripheral).blocks.getD 0 emptyBlock =
      (match derivedPeripheral.blocks.find? (fun c =>
          c.name == (sourcePeripheral.blocks.getD 0 emptyBlock).name) with
       | some c => c
       | none => sourcePeripheral.blocks.getD 0 emptyBlock) :=
  C7_derive_resolution derivedPeripheral sourcePeripheral 0 (by decide)

/-- C8: a read-only field has no generated setter or modify operation and a
write-only field no getter; a write-only register exposes no read operation
and a read-only register no write (nor modify). -/
theorem C8_access_ops (f g : Field) (r s : Register)
    (hf : f.access = Access.readOnly) (hg : g.access = Access.writeOnly)
    (h3 : r.access = Access.readOnly) (h4 : s.access = Access.writeOnly) :
    (FieldOp.setter ∉ fieldOps f.access ∧ FieldOp.modify ∉ fieldOps f.access) ∧
    FieldOp.getter ∉ fieldOps g.access ∧
    (RegisterOp.write ∉ registerOps r.access ∧ RegisterOp.modify ∉ registerOps r.access) ∧
    RegisterOp.read ∉ registerOps s.access := by
  rw [hf, hg, h3, h4]; decide

/-- Witness for C8 at concrete read-only / write-only fields and registers. -/
theorem C8_access_ops_witness :
    (FieldOp.setter ∉ fieldOps roField.access ∧ FieldOp.modify ∉ fieldOps roField.access) ∧
    FieldOp.getter ∉ fieldOps woField.access ∧
    (RegisterOp.write ∉ registerOps roRegister.access ∧
     RegisterOp.modify ∉ registerOps roRegister.access) ∧
    RegisterOp.read ∉ registerOps woRegister.access :=
  C8_access_ops roField woField roRegister woRegister rfl rfl rfl rfl

/-- C9: the nightly flag changes nothing at all for non-Cortex-M targets,
and even for Cortex-M the rendered semantics — which operations each
accessor exposes and the linker-script text — is identical with and
without the flag. -/
theorem C9_nightly_flag (d : Device) (t : Target) (ht : t ≠ Target.CortexM) :
    render d t true = render d t false ∧
    semanticsOf (render d Target.CortexM true) =
      semanticsOf (render d Target.CortexM false) := by
  have hsem : ∀ (u : Target) (b : Bool) (r : Register),
      (renderRegister u b r).semanticsTag = registerSemantics r := fun _ _ _ => rfl
  constructor
  · have hreg : renderRegister t true = renderRegister t false := by
      funext r; simp [renderRegister, ht]
    cases hn : normalize d with
    | error e => simp [render, hn]
    | ok nd => simp [render, hn, hreg]
  · cases hn : normalize d with
    | error e => simp [semanticsOf, render, hn]
    | ok nd =>
      simp [semanticsOf, render, hn, Except.toOption, List.map_map, Function.comp, hsem]

/-- Witness for C9 at the sample device and the `none` target. -/
theorem C9_nightly_flag_witness :
    render sampleDevice Target.None true = render sampleDevice Target.None false ∧
    semanticsOf (render sampleDevice Target.CortexM true) =
      semanticsOf (render sampleDevice Target.CortexM false) :=
  C9_nightly_flag sampleDevice Target.None (by decide)

/-- C10: with no target selector, `run` silently defaults to Cortex-M, so a
successful render yields the three-file Cortex-M output shape. -/
theorem C10_default_target (d : Device) (n : Bool) (out : RenderOutput)
    (hr : render d Target.CortexM n = Except.ok out) :
    resolveTarget none = Except.ok Target.CortexM ∧
    (run none d n).2 = Except.ok
      [Artifact.file "lib.rs" (codeStream out.items),
       Artifact.file "device.x" out.deviceX,
       Artifact.file "build.rs" buildRsText] := by
  refine ⟨rfl, ?_⟩
  simp [run, resolveTarget, hr, outputsFor]

/-- Witness for C10: the sample device rendered with no target argument. -/
theorem C10_default_target_witness :
    resolveTarget none = Except.ok Target.CortexM ∧
    (run none sampleDevice false).2 = Except.ok
      [Artifact.file "lib.rs" (codeStream sampleOutCM.items),
       Artifact.file "device.x" sampleOutCM.deviceX,
       Artifact.file "build.rs" buildRsText] :=
  C10_default_target sampleDevice false sampleOutCM rfl

end Svd2Rust
